import Mathlib

/-!
Shallow embedding of the signaling server's session / connection state
machine.

The repository holds four near-identical variants of the same server:

* `Grace`   — src/server.js, first part (lines 1–143): grace-period
  disconnect timers, no reconnect handler.
* `Heart`   — src/server.js, second part (lines 144–372): heartbeat/ping
  variant with two `reconnect-session` handlers (the second is shadowed by
  the first) and immediate offline flags on close.
* `Restore` — src/unnamed/part_000: the `Grace` server plus a
  `restore-session` handler; every other handler is character-for-character
  identical to `Grace`'s, so those embeddings are shared.
* `Mvp`     — src/unnamed/part_001: immediate close handling and a
  `control-event` handler with a separate unknown-session check.

The JS `sessions` and `clients` objects are modelled as association lists
with unique keys; `delete` is key removal, assignment to an existing key is
in-place replacement.  (JS iterates integer-like keys in ascending numeric
order; no modelled behavior depends on iteration order because connection
and session identifiers are freshly drawn, so at most one entry ever
matches a lookup.)  Randomness (`Math.random`) and uuid generation are
external inputs and appear as handler parameters.  Every message a handler
sends is returned as a `(recipient, message)` pair, in send order.
-/

namespace Sig

abbrev ClientId := Nat
abbrev SessionId := Nat
abbrev Code := Nat
abbrev Payload := Nat

/-- The three relayed signaling message kinds. -/
inductive SigKind
  | offer
  | answer
  | ice
deriving DecidableEq, Repr

/-- The `role` field of reconnect / restore requests.  `other` stands for
any string that is neither `"host"` nor `"client"` (including a missing
field). -/
inductive Role
  | host
  | client
  | other
deriving DecidableEq, Repr

/-- The machine-readable codes carried in `{type:'error', message}` replies.
Constructors correspond one-to-one to the string literals of the source. -/
inductive ErrCode
  | invalidJson
  | unknownType
  | invalidSessionCode
  | hostNotAvailable
  | sessionAlreadyHasClient
  | unknownSession
  | peerNotConnected
  | notHost
  | controlNotEnabled
  | noSessionToRestore
  | missingSessionId
deriving DecidableEq, Repr

/-- The `message` strings of `reconnect-session-failed` replies in the
heartbeat variant's second (shadowed) `reconnect-session` handler. -/
inductive RFail
  | sessionGone
  | hostAlreadyConnected
  | clientAlreadyConnected
  | hostNotAvailable
  | invalidRole
deriving DecidableEq, Repr

/-- Session record of the `Grace` / `Restore` / `Mvp` variants:
`{ id, hostId, clientId, createdAt, controlEnabled }`. -/
structure Session where
  id : SessionId
  hostId : ClientId
  clientId : Option ClientId
  createdAt : Nat
  controlEnabled : Bool
deriving DecidableEq, Repr

/-- Session record of the `Heart` variant, which additionally tracks
`hostOffline` and `clientOffline`. -/
structure SessionH where
  id : SessionId
  hostId : ClientId
  clientId : Option ClientId
  createdAt : Nat
  controlEnabled : Bool
  hostOffline : Bool
  clientOffline : Bool
deriving DecidableEq, Repr

/-- Per-connection state kept on the socket (`ws._sessionId`). -/
structure Conn where
  sessionId : Option SessionId
deriving DecidableEq, Repr

/-- Per-connection state of the `Heart` variant (`ws._sessionId`,
`ws._role`). -/
structure ConnH where
  sessionId : Option SessionId
  role : Option Role
deriving DecidableEq, Repr

/-- A message sent by the server, annotated with the JS object it models. -/
inductive OutMsg
  | error (code : ErrCode)
  | connected (clientId : ClientId)
  | sessionCreated (code : Code) (sessionId : SessionId)
  | sessionJoined (sessionId : SessionId) (code : Code)
  | clientJoined (clientId : ClientId)
  | signalFwd (kind : SigKind) (sender : ClientId) (payload : Payload)
  | controlStatus (enabled : Bool)
  | controlEventFwd (sender : ClientId) (event : Payload)
  | hostDisconnected
  | clientDisconnected
  | hostReconnected
  | clientReconnected
  | hostOffline
  | clientOffline
  | sessionRestored (sessionId : SessionId) (code : Code)
  | sessionRejoined (sessionId : SessionId)
  | reconnectFailed (why : RFail)
  | reconnectSuccess (sessionId : SessionId) (code : Code)
deriving DecidableEq, Repr

/-- A send: recipient connection identifier paired with the message. -/
abbrev Send := ClientId × OutMsg

/-- Inbound protocol messages (after JSON parsing). `other` is any message
whose `type` matches no handler. -/
inductive InMsg
  | createSession
  | joinSession (code : Code)
  | signal (kind : SigKind) (sessionId : SessionId) (payload : Payload)
  | toggleControl (sessionId : SessionId) (enabled : Bool)
  | controlMsg (sessionId : SessionId) (event : Payload)
  | restoreSession (code : Code) (role : Role)
  | reconnectSession (code : Code) (role : Role)
  | other
deriving DecidableEq, Repr

/-- `obj[k]`: first value bound to key `k`. -/
def lookupKey {α : Type} (xs : List (Nat × α)) (k : Nat) : Option α :=
  (xs.find? (fun p => p.1 == k)).map (fun p => p.2)

/-- `obj[k] = v`: replace the binding of `k` if present, else append it. -/
def insertKey {α : Type} (xs : List (Nat × α)) (k : Nat) (v : α) : List (Nat × α) :=
  if (xs.find? (fun p => p.1 == k)).isSome then
    xs.map (fun p => if p.1 == k then (k, v) else p)
  else xs ++ [(k, v)]

/-- `delete obj[k]`. -/
def eraseKey {α : Type} (xs : List (Nat × α)) (k : Nat) : List (Nat × α) :=
  xs.filter (fun p => p.1 != k)

/-- `Object.values(sessions).find(s => s.id === sid)`, keeping the code the
matching record is stored under (mutations of the found record are
replacements at that code). -/
def findByIdEntry (ss : List (Code × Session)) (sid : SessionId) : Option (Code × Session) :=
  ss.find? (fun p => p.2.id == sid)

/-- `Heart` analogue of `findByIdEntry`. -/
def findByIdEntryH (ss : List (Code × SessionH)) (sid : SessionId) : Option (Code × SessionH) :=
  ss.find? (fun p => p.2.id == sid)

/-- Full server state of the `Grace` / `Restore` / `Mvp` variants. -/
structure St where
  sessions : List (Code × Session)
  clients : List (ClientId × Conn)
deriving DecidableEq, Repr

/-- Full server state of the `Heart` variant. -/
structure StH where
  sessions : List (Code × SessionH)
  clients : List (ClientId × ConnH)
deriving DecidableEq, Repr

/-- `ws._sessionId = sid` for the connection `cid` (no-op if the connection
is not registered). -/
def setConnSession (cs : List (ClientId × Conn)) (cid : ClientId) (sid : Option SessionId) :
    List (ClientId × Conn) :=
  cs.map (fun p => if p.1 == cid then (p.1, { p.2 with sessionId := sid }) else p)

/-- `ws._sessionId = sid; ws._role = r` in the `Heart` variant. -/
def setConnH (cs : List (ClientId × ConnH)) (cid : ClientId) (sid : Option SessionId)
    (r : Option Role) : List (ClientId × ConnH) :=
  cs.map (fun p => if p.1 == cid then (p.1, { sessionId := sid, role := r }) else p)

/-- `broadcastToSession`: send to every registered connection whose
`_sessionId` equals `sid`, in registry order. -/
def broadcastToSession (cs : List (ClientId × Conn)) (sid : SessionId) (m : OutMsg) :
    List Send :=
  (cs.filter (fun p => p.2.sessionId == some sid)).map (fun p => (p.1, m))

/-- `Heart` analogue of `broadcastToSession`. -/
def broadcastToSessionH (cs : List (ClientId × ConnH)) (sid : SessionId) (m : OutMsg) :
    List Send :=
  (cs.filter (fun p => p.2.sessionId == some sid)).map (fun p => (p.1, m))

/-- A grace-period timer as armed by the `Grace` / `Restore` close handler:
`disconnectTimers[code] = setTimeout(...)` for the given role's slot and the
connection identifier that just closed. -/
inductive TimerKind
  | host
  | client
deriving DecidableEq, Repr

/-- The key data of an armed grace timer. -/
structure TimerArm where
  code : Code
  kind : TimerKind
  cid : ClientId
deriving DecidableEq, Repr

namespace Grace

/-- src/server.js 37–45, `create-session`.  The six-digit code is
`Math.floor(100000 + Math.random() * 900000)`: `rand` is the floored draw
from `[0, 900000)`, `freshId` the uuid, `now` the clock reading. -/
def createSession (st : St) (me : ClientId) (rand : Fin 900000) (freshId : SessionId)
    (now : Nat) : St × List Send :=
  let code : Code := 100000 + rand.1
  let s : Session :=
    { id := freshId, hostId := me, clientId := none, createdAt := now, controlEnabled := false }
  ({ sessions := insertKey st.sessions code s,
     clients := setConnSession st.clients me (some freshId) },
   [(me, OutMsg.sessionCreated code freshId)])

/-- src/server.js 47–65, `join-session`. -/
def joinSession (st : St) (me : ClientId) (code : Code) : St × List Send :=
  match lookupKey st.sessions code with
  | none => (st, [(me, OutMsg.error ErrCode.invalidSessionCode)])
  | some s =>
    if (lookupKey st.clients s.hostId).isNone then
      ({ st with sessions := eraseKey st.sessions code },
       [(me, OutMsg.error ErrCode.hostNotAvailable)])
    else if (s.clientId.bind (fun c => lookupKey st.clients c)).isSome then
      (st, [(me, OutMsg.error ErrCode.sessionAlreadyHasClient)])
    else
      ({ sessions := insertKey st.sessions code { s with clientId := some me },
         clients := setConnSession st.clients me (some s.id) },
       [(me, OutMsg.sessionJoined s.id code), (s.hostId, OutMsg.clientJoined me)])

/-- src/server.js 67–77, the `offer` / `answer` / `ice-candidate` relay. -/
def relaySignal (st : St) (me : ClientId) (k : SigKind) (sid : SessionId) (p : Payload) :
    St × List Send :=
  match findByIdEntry st.sessions sid with
  | none => (st, [(me, OutMsg.error ErrCode.unknownSession)])
  | some (_, s) =>
    let targetId : Option ClientId := if s.hostId = me then s.clientId else some s.hostId
    match targetId with
    | some t =>
      if (lookupKey st.clients t).isSome then (st, [(t, OutMsg.signalFwd k me p)])
      else (st, [(me, OutMsg.error ErrCode.peerNotConnected)])
    | none => (st, [(me, OutMsg.error ErrCode.peerNotConnected)])

/-- src/server.js 79–87, `toggle-control`.  (`!!enabled` is the boolean
`enabled` here.) -/
def toggleControl (st : St) (me : ClientId) (sid : SessionId) (enabled : Bool) :
    St × List Send :=
  match findByIdEntry st.sessions sid with
  | none => (st, [(me, OutMsg.error ErrCode.unknownSession)])
  | some (code, s) =>
    if s.hostId ≠ me then (st, [(me, OutMsg.error ErrCode.notHost)])
    else
      ({ st with sessions := insertKey st.sessions code { s with controlEnabled := enabled } },
       broadcastToSession st.clients s.id (OutMsg.controlStatus enabled))

/-- src/server.js 89–98, `control-event`.  A missing session and a disabled
control flag share one error branch; a null target slot returns silently; a
stale target drops the event silently. -/
def controlEvent (st : St) (me : ClientId) (sid : SessionId) (ev : Payload) :
    St × List Send :=
  match findByIdEntry st.sessions sid with
  | none => (st, [(me, OutMsg.error ErrCode.controlNotEnabled)])
  | some (_, s) =>
    if !s.controlEnabled then (st, [(me, OutMsg.error ErrCode.controlNotEnabled)])
    else
      let targetId : Option ClientId := if s.hostId = me then s.clientId else some s.hostId
      match targetId with
      | none => (st, [])
      | some t =>
        if (lookupKey st.clients t).isSome then (st, [(t, OutMsg.controlEventFwd me ev)])
        else (st, [])

/-- src/server.js 32–101: the message dispatcher of the first variant.  It
has no restore/reconnect handler, so those types fall through to the
`unknown-type` reply like any other unhandled type. -/
def handleMessage (st : St) (me : ClientId) (rand : Fin 900000) (freshId : SessionId)
    (now : Nat) (m : InMsg) : St × List Send :=
  match m with
  | InMsg.createSession => createSession st me rand freshId now
  | InMsg.joinSession code => joinSession st me code
  | InMsg.signal k sid p => relaySignal st me k sid p
  | InMsg.toggleControl sid en => toggleControl st me sid en
  | InMsg.controlMsg sid ev => controlEvent st me sid ev
  | _ => (st, [(me, OutMsg.error ErrCode.unknownType)])

/-- src/server.js 103–138, the close handler.  `wsSid` is the closing
socket's `_sessionId` field.  It deletes the connection from the registry,
finds the first session whose id matches, and arms a grace timer for the
role the closed connection held; it never mutates the session store
itself.  The armed timer (if any) is returned. -/
def close (st : St) (cid : ClientId) (wsSid : Option SessionId) :
    St × List Send × Option TimerArm :=
  let st1 : St := { st with clients := eraseKey st.clients cid }
  match wsSid with
  | none => (st1, [], none)
  | some sid =>
    match findByIdEntry st1.sessions sid with
    | none => (st1, [], none)
    | some (code, s) =>
      if s.hostId = cid then (st1, [], some ⟨code, TimerKind.host, cid⟩)
      else if s.clientId = some cid then (st1, [], some ⟨code, TimerKind.client, cid⟩)
      else (st1, [], none)

/-- src/server.js 115–121: the body of the host grace timer for
`(code, cid)`, run against the state at expiry.  The callback's closure
variable `s` is the record found at close time; the guard
`sessions[code].hostId === clientId` can only hold when that record is
still the one stored at `code` (a replacement session would carry a fresh
host identifier), so the store entry is used throughout. -/
def hostTimerFire (st : St) (code : Code) (cid : ClientId) : St × List Send :=
  match lookupKey st.sessions code with
  | none => (st, [])
  | some s =>
    if s.hostId = cid then
      ({ st with sessions := eraseKey st.sessions code },
       match s.clientId with
       | some c =>
         if (lookupKey st.clients c).isSome then [(c, OutMsg.hostDisconnected)] else []
       | none => [])
    else (st, [])

/-- src/server.js 125–131: the body of the client grace timer for
`(code, cid)` (same closure-aliasing note as `hostTimerFire`). -/
def clientTimerFire (st : St) (code : Code) (cid : ClientId) : St × List Send :=
  match lookupKey st.sessions code with
  | none => (st, [])
  | some s =>
    if s.clientId = some cid then
      ({ st with sessions :=
          insertKey st.sessions code { s with clientId := none, controlEnabled := false } },
       if (lookupKey st.clients s.hostId).isSome then [(s.hostId, OutMsg.clientDisconnected)]
       else [])
    else (st, [])

end Grace

namespace Restore

/-- src/unnamed/part_000 38–66, `restore-session`.  When the session
exists, the handler first runs `clearTimeout(disconnectTimers[code])`
(timer cancellation, outside the store/registry state modelled here), then
reclaims the requested slot only when that slot's current occupant is not
live in the registry; any other combination falls through to one
`no-session-to-restore` error. -/
def restoreSession (st : St) (me : ClientId) (code : Code) (role : Role) : St × List Send :=
  match lookupKey st.sessions code with
  | some s =>
    if role = Role.host ∧ (lookupKey st.clients s.hostId).isNone then
      ({ sessions := insertKey st.sessions code { s with hostId := me },
         clients := setConnSession st.clients me (some s.id) },
       [(me, OutMsg.sessionRestored s.id code)] ++
        (match s.clientId with
         | some c =>
           if (lookupKey st.clients c).isSome then [(c, OutMsg.hostReconnected)] else []
         | none => []))
    else if role = Role.client ∧ (s.clientId.bind (fun c => lookupKey st.clients c)).isNone then
      ({ sessions := insertKey st.sessions code { s with clientId := some me },
         clients := setConnSession st.clients me (some s.id) },
       [(me, OutMsg.sessionRestored s.id code)] ++
        (if (lookupKey st.clients s.hostId).isSome then [(s.hostId, OutMsg.clientReconnected)]
         else []))
    else (st, [(me, OutMsg.error ErrCode.noSessionToRestore)])
  | none => (st, [(me, OutMsg.error ErrCode.noSessionToRestore)])

/-- src/unnamed/part_000 32–137: the dispatcher of the restore variant.
Apart from the added `restore-session` case its handlers are
character-for-character the handlers of src/server.js's first variant
(create 69–77, join 80–98, relay 101–111, toggle 114–122, control-event
125–134, fallback 136), so the `Grace` embeddings are reused verbatim. -/
def handleMessage (st : St) (me : ClientId) (rand : Fin 900000) (freshId : SessionId)
    (now : Nat) (m : InMsg) : St × List Send :=
  match m with
  | InMsg.restoreSession code role => restoreSession st me code role
  | InMsg.createSession => Grace.createSession st me rand freshId now
  | InMsg.joinSession code => Grace.joinSession st me code
  | InMsg.signal k sid p => Grace.relaySignal st me k sid p
  | InMsg.toggleControl sid en => Grace.toggleControl st me sid en
  | InMsg.controlMsg sid ev => Grace.controlEvent st me sid ev
  | _ => (st, [(me, OutMsg.error ErrCode.unknownType)])

end Restore

namespace Heart

/-- src/server.js 193–216: the first, reachable `reconnect-session`
handler.  A missing or unknown code replies nothing.  Otherwise the
requested slot is overwritten *unconditionally* (no liveness check on the
current occupant); any role other than `"host"` takes the client branch.
The peer notification is sent before `session-rejoined`. -/
def reconnectSession (st : StH) (me : ClientId) (code : Code) (role : Role) :
    StH × List Send :=
  match lookupKey st.sessions code with
  | none => (st, [])
  | some s =>
    let clients' := setConnH st.clients me (some s.id) (some role)
    if role = Role.host then
      ({ sessions := insertKey st.sessions code { s with hostId := me, hostOffline := false },
         clients := clients' },
       (match s.clientId with
        | some c =>
          if (lookupKey st.clients c).isSome then [(c, OutMsg.hostReconnected)] else []
        | none => []) ++ [(me, OutMsg.sessionRejoined s.id)])
    else
      ({ sessions :=
          insertKey st.sessions code { s with clientId := some me, clientOffline := false },
         clients := clients' },
       (if (lookupKey st.clients s.hostId).isSome then [(s.hostId, OutMsg.clientReconnected)]
        else []) ++ [(me, OutMsg.sessionRejoined s.id)])

/-- src/server.js 263–305: the second `reconnect-session` handler.  It is
dead code — the first handler returns on every `reconnect-session`
message — but it is the one that validates role exclusivity before
reclaiming a slot. -/
def reconnectSecond (st : StH) (me : ClientId) (code : Code) (role : Role) :
    StH × List Send :=
  match lookupKey st.sessions code with
  | none => (st, [(me, OutMsg.reconnectFailed RFail.sessionGone)])
  | some s =>
    match role with
    | Role.host =>
      if (lookupKey st.clients s.hostId).isSome then
        (st, [(me, OutMsg.reconnectFailed RFail.hostAlreadyConnected)])
      else
        ({ sessions := insertKey st.sessions code { s with hostId := me, hostOffline := false },
           clients := setConnH st.clients me (some s.id) (some Role.host) },
         [(me, OutMsg.reconnectSuccess s.id code)])
    | Role.client =>
      if (s.clientId.bind (fun c => lookupKey st.clients c)).isSome then
        (st, [(me, OutMsg.reconnectFailed RFail.clientAlreadyConnected)])
      else if (lookupKey st.clients s.hostId).isNone then
        (st, [(me, OutMsg.reconnectFailed RFail.hostNotAvailable)])
      else
        ({ sessions :=
            insertKey st.sessions code { s with clientId := some me, clientOffline := false },
           clients := setConnH st.clients me (some s.id) (some Role.client) },
         [(me, OutMsg.reconnectSuccess s.id code), (s.hostId, OutMsg.clientJoined me)])
    | Role.other => (st, [(me, OutMsg.reconnectFailed RFail.invalidRole)])

/-- src/server.js 219–236, `create-session` of the heartbeat variant. -/
def createSession (st : StH) (me : ClientId) (rand : Fin 900000) (freshId : SessionId)
    (now : Nat) : StH × List Send :=
  let code : Code := 100000 + rand.1
  let s : SessionH :=
    { id := freshId, hostId := me, clientId := none, createdAt := now,
      controlEnabled := false, hostOffline := false, clientOffline := false }
  ({ sessions := insertKey st.sessions code s,
     clients := setConnH st.clients me (some freshId) (some Role.host) },
   [(me, OutMsg.sessionCreated code freshId)])

/-- src/server.js 239–261, `join-session` of the heartbeat variant.  Unlike
the other three variants it does *not* delete the session when the host is
unavailable. -/
def joinSession (st : StH) (me : ClientId) (code : Code) : StH × List Send :=
  match lookupKey st.sessions code with
  | none => (st, [(me, OutMsg.error ErrCode.invalidSessionCode)])
  | some s =>
    if (lookupKey st.clients s.hostId).isNone then
      (st, [(me, OutMsg.error ErrCode.hostNotAvailable)])
    else if (s.clientId.bind (fun c => lookupKey st.clients c)).isSome then
      (st, [(me, OutMsg.error ErrCode.sessionAlreadyHasClient)])
    else
      ({ sessions := insertKey st.sessions code { s with clientId := some me },
         clients := setConnH st.clients me (some s.id) (some Role.client) },
       [(me, OutMsg.sessionJoined s.id code), (s.hostId, OutMsg.clientJoined me)])

/-- src/server.js 308–319, the signaling relay of the heartbeat variant: a
dead target drops the message silently (no `peer-not-connected` reply). -/
def relaySignal (st : StH) (me : ClientId) (k : SigKind) (sid : SessionId) (p : Payload) :
    StH × List Send :=
  match findByIdEntryH st.sessions sid with
  | none => (st, [(me, OutMsg.error ErrCode.unknownSession)])
  | some (_, s) =>
    let targetId : Option ClientId := if s.hostId = me then s.clientId else some s.hostId
    match targetId with
    | some t =>
      if (lookupKey st.clients t).isSome then (st, [(t, OutMsg.signalFwd k me p)])
      else (st, [])
    | none => (st, [])

/-- src/server.js 322–330, `toggle-control` of the heartbeat variant: a
missing session or a non-host sender is ignored silently. -/
def toggleControl (st : StH) (me : ClientId) (sid : SessionId) (enabled : Bool) :
    StH × List Send :=
  match findByIdEntryH st.sessions sid with
  | none => (st, [])
  | some (code, s) =>
    if s.hostId = me then
      ({ st with sessions := insertKey st.sessions code { s with controlEnabled := enabled } },
       broadcastToSessionH st.clients s.id (OutMsg.controlStatus enabled))
    else (st, [])

/-- src/server.js 183–331: the dispatcher of the heartbeat variant.  The
first `reconnect-session` block returns, so the second (`reconnectSecond`)
is unreachable; there is no `control-event` handler and no `unknown-type`
fallback — unhandled types are ignored silently. -/
def handleMessage (st : StH) (me : ClientId) (rand : Fin 900000) (freshId : SessionId)
    (now : Nat) (m : InMsg) : StH × List Send :=
  match m with
  | InMsg.reconnectSession code role => reconnectSession st me code role
  | InMsg.createSession => createSession st me rand freshId now
  | InMsg.joinSession code => joinSession st me code
  | InMsg.signal k sid p => relaySignal st me k sid p
  | InMsg.toggleControl sid en => toggleControl st me sid en
  | _ => (st, [])

/-- src/server.js 333–356, the close handler of the heartbeat variant:
deletes the connection, finds the session bound to the socket's
`_sessionId`, and immediately flags the vacated role offline — for the
client role also forcing `controlEnabled` to false — notifying the peer if
live.  No timer is armed. -/
def close (st : StH) (cid : ClientId) (wsSid : Option SessionId) : StH × List Send :=
  let st1 : StH := { st with clients := eraseKey st.clients cid }
  match wsSid with
  | none => (st1, [])
  | some sid =>
    match findByIdEntryH st1.sessions sid with
    | none => (st1, [])
    | some (code, s) =>
      if s.hostId = cid then
        ({ st1 with sessions := insertKey st1.sessions code { s with hostOffline := true } },
         match s.clientId with
         | some c =>
           if (lookupKey st1.clients c).isSome then [(c, OutMsg.hostOffline)] else []
         | none => [])
      else if s.clientId = some cid then
        let s' : SessionH := { s with clientOffline := true, controlEnabled := false }
        ({ st1 with sessions := insertKey st1.sessions code s' },
         if (lookupKey st1.clients s.hostId).isSome then [(s.hostId, OutMsg.clientOffline)]
         else [])
      else (st1, [])

end Heart

namespace Mvp

/-- src/unnamed/part_001 149–163, `control-event` of the MVP variant: the
missing-session case is a separate `unknown-session` error, a null target
slot yields `peer-not-connected`, a stale target drops silently. -/
def controlEvent (st : St) (me : ClientId) (sid : SessionId) (ev : Payload) :
    St × List Send :=
  match findByIdEntry st.sessions sid with
  | none => (st, [(me, OutMsg.error ErrCode.unknownSession)])
  | some (_, s) =>
    if !s.controlEnabled then (st, [(me, OutMsg.error ErrCode.controlNotEnabled)])
    else
      let targetId : Option ClientId := if s.hostId = me then s.clientId else some s.hostId
      match targetId with
      | none => (st, [(me, OutMsg.error ErrCode.peerNotConnected)])
      | some t =>
        if (lookupKey st.clients t).isSome then (st, [(t, OutMsg.controlEventFwd me ev)])
        else (st, [])

/-- src/unnamed/part_001 169–202, the close handler of the MVP variant:
host close removes the session at once (notifying a live client first),
client close clears the slot and forces `controlEnabled` false. -/
def close (st : St) (cid : ClientId) (wsSid : Option SessionId) : St × List Send :=
  let st1 : St := { st with clients := eraseKey st.clients cid }
  match wsSid with
  | none => (st1, [])
  | some sid =>
    match findByIdEntry st1.sessions sid with
    | none => (st1, [])
    | some (code, s) =>
      if s.hostId = cid then
        ({ st1 with sessions := eraseKey st1.sessions code },
         match s.clientId with
         | some c =>
           if (lookupKey st1.clients c).isSome then [(c, OutMsg.hostDisconnected)] else []
         | none => [])
      else if s.clientId = some cid then
        ({ st1 with sessions :=
            insertKey st1.sessions code { s with clientId := none, controlEnabled := false } },
         if (lookupKey st1.clients s.hostId).isSome then [(s.hostId, OutMsg.clientDisconnected)]
         else [])
      else (st1, [])

end Mvp

/-- The protocol-precondition failures of the spec's error taxonomy
(unknown type, unknown session code or id, wrong role, control disabled,
client slot occupied), as the first variant's dispatcher detects them:
`some e` exactly when that dispatcher takes the corresponding error
branch.  Branches outside the taxonomy's clause (b) — `host-not-available`
(peer unreachable, and it garbage-collects the session) and
`peer-not-connected` (a delivery notice) — are deliberately excluded. -/
def gracePreFail (st : St) (me : ClientId) (m : InMsg) : Option ErrCode :=
  match m with
  | InMsg.createSession => none
  | InMsg.joinSession code =>
    match lookupKey st.sessions code with
    | none => some ErrCode.invalidSessionCode
    | some s =>
      if (lookupKey st.clients s.hostId).isNone then none
      else if (s.clientId.bind (fun c => lookupKey st.clients c)).isSome then
        some ErrCode.sessionAlreadyHasClient
      else none
  | InMsg.signal _ sid _ =>
    match findByIdEntry st.sessions sid with
    | none => some ErrCode.unknownSession
    | some _ => none
  | InMsg.toggleControl sid _ =>
    match findByIdEntry st.sessions sid with
    | none => some ErrCode.unknownSession
    | some (_, s) => if s.hostId ≠ me then some ErrCode.notHost else none
  | InMsg.controlMsg sid _ =>
    match findByIdEntry st.sessions sid with
    | none => some ErrCode.controlNotEnabled
    | some (_, s) => if !s.controlEnabled then some ErrCode.controlNotEnabled else none
  | InMsg.restoreSession _ _ => some ErrCode.unknownType
  | InMsg.reconnectSession _ _ => some ErrCode.unknownType
  | InMsg.other => some ErrCode.unknownType

/-- `Restore` variant analogue of `gracePreFail`: `restore-session` is a
handled type there, and all its failure branches collapse into one
`no-session-to-restore` error. -/
def restorePreFail (st : St) (me : ClientId) (m : InMsg) : Option ErrCode :=
  match m with
  | InMsg.restoreSession code role =>
    match lookupKey st.sessions code with
    | none => some ErrCode.noSessionToRestore
    | some s =>
      if role = Role.host ∧ (lookupKey st.clients s.hostId).isNone then none
      else if role = Role.client ∧ (s.clientId.bind (fun c => lookupKey st.clients c)).isNone
        then none
      else some ErrCode.noSessionToRestore
  | InMsg.reconnectSession _ _ => some ErrCode.unknownType
  | _ => gracePreFail st me m

/-- Concrete state for witnesses: one session under code `100001` (id `5`,
host connection `1`, client connection `9`, control disabled); connections
`1` and `9` live and bound to the session, `2` live and unbound. -/
def wSt : St where
  sessions :=
    [(100001, ⟨5, 1, some 9, 0, false⟩)]
  clients :=
    [(1, ⟨some 5⟩), (9, ⟨some 5⟩), (2, ⟨none⟩)]

/-- `wSt` with control currently enabled. -/
def cSt : St where
  sessions :=
    [(100001, ⟨5, 1, some 9, 0, true⟩)]
  clients :=
    [(1, ⟨some 5⟩), (9, ⟨some 5⟩)]

/-- Concrete state whose session (code `100001`, id `5`) has a free client
slot and a live host `1`; connection `2` is live and unbound. -/
def freeSt : St where
  sessions :=
    [(100001, ⟨5, 1, none, 0, false⟩)]
  clients :=
    [(1, ⟨some 5⟩), (2, ⟨none⟩)]

/-- Concrete state whose session's host connection `1` is no longer in the
registry (an orphaned session); connection `2` is live and unbound. -/
def orphanSt : St where
  sessions :=
    [(100001, ⟨5, 1, none, 0, false⟩)]
  clients :=
    [(2, ⟨none⟩)]

/-- Concrete state for the session-code collision counterexample: a live
session under code `123456` with id `1` and live host `4`; connection `7`
is live and unbound. -/
def collSt : St where
  sessions :=
    [(123456, ⟨1, 4, none, 0, false⟩)]
  clients :=
    [(4, ⟨some 1⟩), (7, ⟨none⟩)]

/-- Concrete heartbeat-variant state: session under code `100001` (id `5`,
host `1`, client `9`, control enabled, nobody offline); connections `1`,
`9` bound, `2` live and unbound.  Record fields are in declaration order:
id, hostId, clientId, createdAt, controlEnabled, hostOffline,
clientOffline. -/
def hSt : StH where
  sessions :=
    [(100001, ⟨5, 1, some 9, 0, true, false, false⟩)]
  clients :=
    [(1, ⟨some 5, some Role.host⟩), (9, ⟨some 5, some Role.client⟩), (2, ⟨none, none⟩)]

/-- `hSt` after client `9` already went offline: `9` deregistered,
`clientOffline` set, control forced off. -/
def hOffSt : StH where
  sessions :=
    [(100001, ⟨5, 1, some 9, 0, false, false, true⟩)]
  clients :=
    [(1, ⟨some 5, some Role.host⟩), (2, ⟨none, none⟩)]

/-- Heartbeat-variant state whose session's host `1` is not in the
registry; connection `2` is live and unbound. -/
def hOrphanSt : StH where
  sessions :=
    [(100001, ⟨5, 1, none, 0, false, true, false⟩)]
  clients :=
    [(2, ⟨none, none⟩)]

/-- Heartbeat-variant state whose session names client `9` while `9` is
not in the registry (stale client slot); host `1` is live. -/
def hStaleSt : StH where
  sessions :=
    [(100001, ⟨5, 1, some 9, 0, true, false, true⟩)]
  clients :=
    [(1, ⟨some 5, some Role.host⟩)]

/-- A fixed random draw for witnesses. -/
def rand0 : Fin 900000 := ⟨0, by decide⟩

/-! Lemmas about the association-list operations. -/

theorem find?_replace_self {α : Type} (t : List (Nat × α)) (k : Nat) (v : α)
    (hs : (t.find? (fun p => p.1 == k)).isSome) :
    (t.map (fun p => if p.1 == k then (k, v) else p)).find? (fun p => p.1 == k) =
      some (k, v) := by
  induction t with
  | nil => simp at hs
  | cons a t ih =>
    rw [List.map_cons]
    by_cases ha : a.1 = k
    · rw [if_pos (by simpa using ha)]
      rw [List.find?_cons_of_pos _ (by simp)]
    · rw [if_neg (by simpa using ha)]
      rw [List.find?_cons_of_neg _ (by simpa using ha)]
      apply ih
      rw [List.find?_cons_of_neg _ (by simpa using ha)] at hs
      exact hs

theorem find?_replace_ne {α : Type} (t : List (Nat × α)) (k k' : Nat) (v : α)
    (hne : k' ≠ k) :
    (t.map (fun p => if p.1 == k then (k, v) else p)).find? (fun p => p.1 == k') =
      t.find? (fun p => p.1 == k') := by
  induction t with
  | nil => rfl
  | cons a t ih =>
    rw [List.map_cons]
    by_cases ha : a.1 = k
    · have ha' : ¬ a.1 = k' := by rw [ha]; exact fun hh => hne hh.symm
      rw [if_pos (by simpa using ha)]
      rw [List.find?_cons_of_neg _ (by simpa using fun hh => hne (Eq.symm hh))]
      rw [List.find?_cons_of_neg _ (by simpa using ha')]
      exact ih
    · rw [if_neg (by simpa using ha)]
      by_cases ha' : a.1 = k'
      · rw [List.find?_cons_of_pos _ (by simpa using ha'),
          List.find?_cons_of_pos _ (by simpa using ha')]
      · rw [List.find?_cons_of_neg _ (by simpa using ha'),
          List.find?_cons_of_neg _ (by simpa using ha')]
        exact ih

theorem lookupKey_insertKey_self {α : Type} (xs : List (Nat × α)) (k : Nat) (v : α) :
    lookupKey (insertKey xs k v) k = some v := by
  rw [insertKey]
  by_cases h : (xs.find? (fun p => p.1 == k)).isSome
  · rw [if_pos h, lookupKey, find?_replace_self xs k v h]
    rfl
  · rw [if_neg h, lookupKey, List.find?_append]
    have h2 : xs.find? (fun p => p.1 == k) = none := by
      cases hx : xs.find? (fun p => p.1 == k) <;> simp [hx] at h ⊢
    simp [h2]

theorem lookupKey_insertKey_ne {α : Type} (xs : List (Nat × α)) (k k' : Nat) (v : α)
    (hne : k' ≠ k) : lookupKey (insertKey xs k v) k' = lookupKey xs k' := by
  rw [insertKey]
  by_cases h : (xs.find? (fun p => p.1 == k)).isSome
  · rw [if_pos h, lookupKey, find?_replace_ne xs k k' v hne, lookupKey]
  · rw [if_neg h, lookupKey, lookupKey, List.find?_append]
    have hk : ([(k, v)].find? (fun p => p.1 == k')) = none := by
      simp; exact fun hh => hne (Eq.symm hh)
    rw [hk]
    simp

theorem lookupKey_eraseKey_self {α : Type} (xs : List (Nat × α)) (k : Nat) :
    lookupKey (eraseKey xs k) k = none := by
  rw [lookupKey]
  have h : (eraseKey xs k).find? (fun p => p.1 == k) = none := by
    rw [List.find?_eq_none]
    intro x hx
    rw [eraseKey, List.mem_filter] at hx
    simpa using hx.2
  simp [h]

theorem lookupKey_eraseKey_ne {α : Type} (xs : List (Nat × α)) (k k' : Nat) (hne : k' ≠ k) :
    lookupKey (eraseKey xs k) k' = lookupKey xs k' := by
  rw [lookupKey, lookupKey]
  induction xs with
  | nil => rfl
  | cons a t ih =>
    by_cases ha : a.1 = k
    · have ha' : ¬ a.1 = k' := by rw [ha]; exact fun hh => hne hh.symm
      rw [eraseKey, List.filter_cons_of_neg (by simpa using ha)]
      rw [List.find?_cons_of_neg _ (by simpa using ha')]
      exact ih
    · rw [eraseKey, List.filter_cons_of_pos (by simpa using ha)]
      by_cases ha' : a.1 = k'
      · rw [List.find?_cons_of_pos _ (by simpa using ha'),
          List.find?_cons_of_pos _ (by simpa using ha')]
      · rw [List.find?_cons_of_neg _ (by simpa using ha'),
          List.find?_cons_of_neg _ (by simpa using ha')]
        exact ih

theorem eraseKey_of_lookup_none {α : Type} (xs : List (Nat × α)) (k : Nat)
    (h : lookupKey xs k = none) : eraseKey xs k = xs := by
  rw [lookupKey] at h
  have h2 : xs.find? (fun p => p.1 == k) = none := by
    cases hx : xs.find? (fun p => p.1 == k) <;> simp [hx] at h ⊢
  rw [List.find?_eq_none] at h2
  rw [eraseKey, List.filter_eq_self]
  intro p hp
  simpa using h2 p hp

theorem lookupKey_of_mem {α : Type} (xs : List (Nat × α)) (k : Nat) (v : α)
    (hmem : (k, v) ∈ xs) (hnd : (xs.map Prod.fst).Nodup) : lookupKey xs k = some v := by
  induction xs with
  | nil => simp at hmem
  | cons a t ih =>
    rw [List.map_cons, List.nodup_cons] at hnd
    rcases List.mem_cons.mp hmem with h | h
    · rw [lookupKey, List.find?_cons_of_pos _ (by simp [← h])]
      simp [← h]
    · have hk : k ∈ t.map Prod.fst := List.mem_map.mpr ⟨(k, v), h, rfl⟩
      have ha : ¬ a.1 = k := fun hh => hnd.1 (hh ▸ hk)
      rw [lookupKey, List.find?_cons_of_neg _ (by simpa using ha)]
      exact ih h hnd.2

theorem insertKey_eq_self {α : Type} (xs : List (Nat × α)) (k : Nat) (v : α)
    (hnd : (xs.map Prod.fst).Nodup) (hl : lookupKey xs k = some v) :
    insertKey xs k v = xs := by
  have hs : (xs.find? (fun p => p.1 == k)).isSome := by
    rw [lookupKey] at hl
    cases hx : xs.find? (fun p => p.1 == k) <;> simp [hx] at hl ⊢
  rw [insertKey, if_pos hs]
  clear hs
  induction xs with
  | nil => simp [lookupKey] at hl
  | cons a t ih =>
    rw [List.map_cons, List.nodup_cons] at hnd
    by_cases ha : a.1 = k
    · have hv : a.2 = v := by
        rw [lookupKey, List.find?_cons_of_pos _ (by simpa using ha)] at hl
        simpa using hl
      have ht : ∀ p ∈ t, ¬ p.1 = k := by
        intro p hp hpk
        exact hnd.1 (ha ▸ hpk ▸ List.mem_map.mpr ⟨p, hp, rfl⟩)
      rw [List.map_cons, if_pos (by simpa using ha)]
      have htm : t.map (fun p => if p.1 == k then (k, v) else p) = t := by
        calc t.map (fun p => if p.1 == k then (k, v) else p) = t.map id :=
              List.map_congr_left (fun p hp => by simp [ht p hp])
          _ = t := List.map_id t
      rw [htm]
      have hkv : (k, v) = a := by rw [← ha, ← hv]
      rw [hkv]
    · have hl' : lookupKey t k = some v := by
        rw [lookupKey, List.find?_cons_of_neg _ (by simpa using ha)] at hl
        exact hl
      rw [List.map_cons, if_neg (by simpa using ha), ih hnd.2 hl']

theorem nodupKeys_insertKey {α : Type} (xs : List (Nat × α)) (k : Nat) (v : α)
    (h : (xs.map Prod.fst).Nodup) : ((insertKey xs k v).map Prod.fst).Nodup := by
  rw [insertKey]
  by_cases hs : (xs.find? (fun p => p.1 == k)).isSome
  · rw [if_pos hs]
    have heq : (xs.map (fun p => if p.1 == k then (k, v) else p)).map Prod.fst =
        xs.map Prod.fst := by
      rw [List.map_map]
      apply List.map_congr_left
      intro p _
      by_cases hp : p.1 = k <;> simp [hp]
    rw [heq]
    exact h
  · rw [if_neg hs, List.map_append]
    have hk : k ∉ xs.map Prod.fst := by
      intro hmem
      obtain ⟨p, hp, hpk⟩ := List.mem_map.mp hmem
      exact hs (List.find?_isSome.mpr ⟨p, hp, by simp [hpk]⟩)
    simp [List.nodup_append, h, hk]

theorem lookupKey_setConnSession_self (cs : List (ClientId × Conn)) (cid : ClientId)
    (sid : Option SessionId) :
    lookupKey (setConnSession cs cid sid) cid =
      (lookupKey cs cid).map (fun c => { c with sessionId := sid }) := by
  rw [lookupKey, lookupKey, setConnSession]
  induction cs with
  | nil => rfl
  | cons a t ih =>
    by_cases ha : a.1 = cid
    · rw [List.map_cons, if_pos (by simpa using ha)]
      rw [List.find?_cons_of_pos _ (by simpa using ha),
        List.find?_cons_of_pos _ (by simpa using ha)]
      rfl
    · rw [List.map_cons, if_neg (by simpa using ha)]
      rw [List.find?_cons_of_neg _ (by simpa using ha),
        List.find?_cons_of_neg _ (by simpa using ha)]
      exact ih

theorem eraseKey_idem {α : Type} (xs : List (Nat × α)) (k : Nat) :
    eraseKey (eraseKey xs k) k = eraseKey xs k :=
  eraseKey_of_lookup_none _ _ (lookupKey_eraseKey_self xs k)

theorem lookupKey_setConnH_self (cs : List (ClientId × ConnH)) (cid : ClientId)
    (sid : Option SessionId) (r : Option Role) :
    lookupKey (setConnH cs cid sid r) cid =
      (lookupKey cs cid).map (fun _ => ({ sessionId := sid, role := r } : ConnH)) := by
  rw [lookupKey, lookupKey, setConnH]
  induction cs with
  | nil => rfl
  | cons a t ih =>
    by_cases ha : a.1 = cid
    · rw [List.map_cons, if_pos (by simpa using ha)]
      rw [List.find?_cons_of_pos _ (by simpa using ha),
        List.find?_cons_of_pos _ (by simpa using ha)]
      rfl
    · rw [List.map_cons, if_neg (by simpa using ha)]
      rw [List.find?_cons_of_neg _ (by simpa using ha),
        List.find?_cons_of_neg _ (by simpa using ha)]
      exact ih

/-! The claims. -/

/-- C8: for every session with `controlEnabled = false` — whatever sequence
of prior `toggle-control` messages produced that state — a `control-event`
naming that session's id earns the sender one `control-not-enabled` error
and is forwarded to nobody, with the state untouched.  Proved for the
grace-period variant's dispatcher (src/server.js 89–98) and the MVP
variant's handler (src/unnamed/part_001 149–163). -/
theorem c8_control_disabled_rejected :
    ∀ (st : St) (me : ClientId) (sid : SessionId) (ev : Payload) (code : Code) (s : Session)
      (rand : Fin 900000) (freshId : SessionId) (now : Nat),
      findByIdEntry st.sessions sid = some (code, s) →
      s.controlEnabled = false →
      Grace.handleMessage st me rand freshId now (InMsg.controlMsg sid ev) =
        (st, [(me, OutMsg.error ErrCode.controlNotEnabled)]) ∧
      Mvp.controlEvent st me sid ev =
        (st, [(me, OutMsg.error ErrCode.controlNotEnabled)]) := by
  intro st me sid ev code s rand freshId now hfind hce
  constructor <;>
    simp [Grace.handleMessage, Grace.controlEvent, Mvp.controlEvent, hfind, hce]

/-- Witness for C8 at a concrete state: host `1` sends `control-event`
while control is disabled. -/
theorem c8_control_disabled_rejected_witness :
    Grace.handleMessage wSt 1 rand0 0 0 (InMsg.controlMsg 5 7) =
      (wSt, [(1, OutMsg.error ErrCode.controlNotEnabled)]) ∧
    Mvp.controlEvent wSt 1 5 7 = (wSt, [(1, OutMsg.error ErrCode.controlNotEnabled)]) :=
  c8_control_disabled_rejected wSt 1 5 7 100001 ⟨5, 1, some 9, 0, false⟩ rand0 0 0
    (by decide) (by decide)

/-- C9: the signaling relay never validates that the sender belongs to the
session.  A connection that is neither host nor client of the session and
names its id in an `offer`/`answer`/`ice-candidate` has the message
forwarded to the session's host (the sender compares unequal to `hostId`,
so the host slot is picked as target), with the outsider's id as the
`from` field — it is not rejected.  Proved for src/server.js 67–77 and
src/unnamed/part_000 100–111 (the latter's dispatcher reuses the identical
relay embedding). -/
theorem c9_relay_no_membership_check :
    ∀ (st : St) (me : ClientId) (k : SigKind) (sid : SessionId) (p : Payload)
      (code : Code) (s : Session) (rand : Fin 900000) (freshId : SessionId) (now : Nat),
      findByIdEntry st.sessions sid = some (code, s) →
      me ≠ s.hostId → s.clientId ≠ some me →
      (lookupKey st.clients s.hostId).isSome →
      Grace.handleMessage st me rand freshId now (InMsg.signal k sid p) =
        (st, [(s.hostId, OutMsg.signalFwd k me p)]) ∧
      Restore.handleMessage st me rand freshId now (InMsg.signal k sid p) =
        (st, [(s.hostId, OutMsg.signalFwd k me p)]) := by
  intro st me k sid p code s rand freshId now hfind hne hnc hlive
  have hh : ¬ s.hostId = me := fun hh => hne hh.symm
  constructor <;>
    simp [Grace.handleMessage, Restore.handleMessage, Grace.relaySignal, hfind, hh, hlive]

/-- Witness for C9: unbound connection `2` relays an offer into session
`5` and the host `1` receives it with `from = 2`. -/
theorem c9_relay_no_membership_check_witness :
    Grace.handleMessage wSt 2 rand0 0 0 (InMsg.signal SigKind.offer 5 42) =
      (wSt, [(1, OutMsg.signalFwd SigKind.offer 2 42)]) ∧
    Restore.handleMessage wSt 2 rand0 0 0 (InMsg.signal SigKind.offer 5 42) =
      (wSt, [(1, OutMsg.signalFwd SigKind.offer 2 42)]) :=
  c9_relay_no_membership_check wSt 2 SigKind.offer 5 42 100001 ⟨5, 1, some 9, 0, false⟩
    rand0 0 0 (by decide) (by decide) (by decide) (by decide)

/-- C10: a `control-event` whose session id resolves to no stored session
is answered with `control-not-enabled`, not `unknown-session`: the
missing-session case and the control-disabled case share one error branch
(src/server.js 89–92 and src/unnamed/part_000 125–128). -/
theorem c10_control_event_unknown_session :
    ∀ (st : St) (me : ClientId) (sid : SessionId) (ev : Payload) (rand : Fin 900000)
      (freshId : SessionId) (now : Nat),
      findByIdEntry st.sessions sid = none →
      Grace.handleMessage st me rand freshId now (InMsg.controlMsg sid ev) =
        (st, [(me, OutMsg.error ErrCode.controlNotEnabled)]) ∧
      Restore.handleMessage st me rand freshId now (InMsg.controlMsg sid ev) =
        (st, [(me, OutMsg.error ErrCode.controlNotEnabled)]) := by
  intro st me sid ev rand freshId now h
  constructor <;>
    simp [Grace.handleMessage, Restore.handleMessage, Grace.controlEvent, h]

/-- Witness for C10: session id `77` resolves to nothing, yet the error is
`control-not-enabled`. -/
theorem c10_control_event_unknown_session_witness :
    Grace.handleMessage wSt 2 rand0 0 0 (InMsg.controlMsg 77 0) =
      (wSt, [(2, OutMsg.error ErrCode.controlNotEnabled)]) ∧
    Restore.handleMessage wSt 2 rand0 0 0 (InMsg.controlMsg 77 0) =
      (wSt, [(2, OutMsg.error ErrCode.controlNotEnabled)]) :=
  c10_control_event_unknown_session wSt 2 77 0 rand0 0 0 (by decide)

/-- C3: a grace timer armed for `(session code, role, connection id)` acts
only if the session still exists at that code and the role slot still
names the very connection id that armed it (a slot re-armed by a newer
connection is left alone).  A host-role expiry removes the whole session
and notifies a bound live client; a client-role expiry only clears the
client slot and forces `controlEnabled` false, leaving the session in the
store.  Proved for src/server.js 108–137; the timer callbacks of
src/unnamed/part_000 144–171 are character-for-character identical and are
covered by the same embedding. -/
theorem c3_grace_timer_fire :
    (∀ (st : St) (code : Code) (cid : ClientId), lookupKey st.sessions code = none →
      Grace.hostTimerFire st code cid = (st, []) ∧
      Grace.clientTimerFire st code cid = (st, [])) ∧
    (∀ (st : St) (code : Code) (cid : ClientId) (s : Session),
      lookupKey st.sessions code = some s → s.hostId ≠ cid →
      Grace.hostTimerFire st code cid = (st, [])) ∧
    (∀ (st : St) (code : Code) (cid : ClientId) (s : Session),
      lookupKey st.sessions code = some s → s.clientId ≠ some cid →
      Grace.clientTimerFire st code cid = (st, [])) ∧
    (∀ (st : St) (code : Code) (cid : ClientId) (s : Session),
      lookupKey st.sessions code = some s → s.hostId = cid →
      (Grace.hostTimerFire st code cid).1.clients = st.clients ∧
      lookupKey (Grace.hostTimerFire st code cid).1.sessions code = none ∧
      (Grace.hostTimerFire st code cid).2 =
        (match s.clientId with
         | some c =>
           if (lookupKey st.clients c).isSome then [(c, OutMsg.hostDisconnected)] else []
         | none => [])) ∧
    (∀ (st : St) (code : Code) (cid : ClientId) (s : Session),
      lookupKey st.sessions code = some s → s.clientId = some cid →
      (Grace.clientTimerFire st code cid).1.clients = st.clients ∧
      lookupKey (Grace.clientTimerFire st code cid).1.sessions code =
        some { s with clientId := none, controlEnabled := false } ∧
      (Grace.clientTimerFire st code cid).2 =
        (if (lookupKey st.clients s.hostId).isSome then
          [(s.hostId, OutMsg.clientDisconnected)]
         else [])) := by
  refine ⟨?_, ?_, ?_, ?_, ?_⟩
  · intro st code cid h
    constructor <;> simp [Grace.hostTimerFire, Grace.clientTimerFire, h]
  · intro st code cid s h hne
    simp [Grace.hostTimerFire, h, hne]
  · intro st code cid s h hne
    simp [Grace.clientTimerFire, h, hne]
  · intro st code cid s h he
    refine ⟨?_, ?_, ?_⟩ <;>
      simp [Grace.hostTimerFire, h, he, lookupKey_eraseKey_self]
  · intro st code cid s h he
    refine ⟨?_, ?_, ?_⟩ <;>
      simp [Grace.clientTimerFire, h, he, lookupKey_insertKey_self]

/-- Witness for C3: in `wSt`, a stale timer keyed to connection `42` does
nothing; the host timer for `1` removes the session and notifies client
`9`; the client timer for `9` clears the slot, forces control off, keeps
the session, and notifies host `1`. -/
theorem c3_grace_timer_fire_witness :
    Grace.hostTimerFire wSt 100001 42 = (wSt, []) ∧
    lookupKey (Grace.hostTimerFire wSt 100001 1).1.sessions 100001 = none ∧
    (Grace.hostTimerFire wSt 100001 1).2 = [(9, OutMsg.hostDisconnected)] ∧
    lookupKey (Grace.clientTimerFire wSt 100001 9).1.sessions 100001 =
      some ⟨5, 1, none, 0, false⟩ ∧
    (Grace.clientTimerFire wSt 100001 9).2 = [(1, OutMsg.clientDisconnected)] := by
  have h2 := c3_grace_timer_fire.2.1 wSt 100001 42 ⟨5, 1, some 9, 0, false⟩
    (by decide) (by decide)
  have h4 := c3_grace_timer_fire.2.2.2.1 wSt 100001 1 ⟨5, 1, some 9, 0, false⟩
    (by decide) (by decide)
  have h5 := c3_grace_timer_fire.2.2.2.2 wSt 100001 9 ⟨5, 1, some 9, 0, false⟩
    (by decide) (by decide)
  exact ⟨h2, h4.2.1, h4.2.2, h5.2.1, h5.2.2⟩

/-- C1 counterexample: in the grace-period variant (src/server.js
103–138), closing the bound client `9` of `cSt` (control currently
enabled) leaves the session store — including `controlEnabled = true` —
completely untouched; it only deregisters the socket and arms a client
grace timer.  So `controlEnabled` is *not* set to false immediately on
client disconnect in that variant. -/
theorem c1_counterexample :
    (Grace.close cSt 9 (some 5)).1.sessions = cSt.sessions ∧
    (lookupKey (Grace.close cSt 9 (some 5)).1.sessions 100001).map Session.controlEnabled =
      some true ∧
    (Grace.close cSt 9 (some 5)).2.1 = [] ∧
    (Grace.close cSt 9 (some 5)).2.2 = some ⟨100001, TimerKind.client, 9⟩ := by
  decide

/-- C1 amended: in the heartbeat variant (src/server.js 345–351) a client
disconnect sets `controlEnabled` false immediately, and a repeated
disconnect of the already-offline client changes no further state; in the
grace-period variant (src/server.js 122–132) the close handler leaves the
session store untouched — `controlEnabled` is reset only when the client
grace timer fires (see C3). -/
theorem c1_client_disconnect_control_reset :
    (∀ (st : StH) (cid : ClientId) (sid : SessionId) (code : Code) (s : SessionH),
      findByIdEntryH st.sessions sid = some (code, s) →
      s.hostId ≠ cid → s.clientId = some cid →
      lookupKey (Heart.close st cid (some sid)).1.sessions code =
        some { s with clientOffline := true, controlEnabled := false }) ∧
    (∀ (st : StH) (cid : ClientId) (sid : SessionId) (code : Code) (s : SessionH),
      (st.sessions.map Prod.fst).Nodup →
      findByIdEntryH st.sessions sid = some (code, s) →
      s.hostId ≠ cid → s.clientId = some cid →
      s.clientOffline = true → s.controlEnabled = false →
      lookupKey st.clients cid = none →
      (Heart.close st cid (some sid)).1 = st) ∧
    (∀ (st : St) (cid : ClientId) (wsSid : Option SessionId),
      (Grace.close st cid wsSid).1.sessions = st.sessions) := by
  refine ⟨?_, ?_, ?_⟩
  · intro st cid sid code s hfind hne hcl
    simp [Heart.close, hfind, hne, hcl, lookupKey_insertKey_self]
  · intro st cid sid code s hnd hfind hne hcl hco hce hreg
    have hmem : (code, s) ∈ st.sessions := List.mem_of_find?_eq_some hfind
    have hlook : lookupKey st.sessions code = some s := lookupKey_of_mem _ _ _ hmem hnd
    have hrec : ({ s with clientOffline := true, controlEnabled := false } : SessionH) = s := by
      cases s
      simp_all
    rw [hcl] at hrec
    have her : eraseKey st.clients cid = st.clients := eraseKey_of_lookup_none _ _ hreg
    simp [Heart.close, her, hfind, hne, hcl, hrec, insertKey_eq_self _ _ _ hnd hlook]
  · intro st cid wsSid
    rcases wsSid with _ | sid
    · rfl
    · simp only [Grace.close]
      rcases hf : findByIdEntry st.sessions sid with _ | ⟨code, s⟩
      · simp [hf]
      · by_cases h1 : s.hostId = cid
        · simp [hf, h1]
        · by_cases h2 : s.clientId = some cid <;> simp [hf, h1, h2]

/-- Witness for C1: the heartbeat close of live client `9` forces control
off at once; re-running the close on the already-offline state `hOffSt`
returns that state unchanged; the grace-period close of `9` in `cSt`
preserves the session store. -/
theorem c1_client_disconnect_control_reset_witness :
    lookupKey (Heart.close hSt 9 (some 5)).1.sessions 100001 =
      some ⟨5, 1, some 9, 0, false, false, true⟩ ∧
    (Heart.close hOffSt 9 (some 5)).1 = hOffSt ∧
    (Grace.close cSt 9 (some 5)).1.sessions = cSt.sessions := by
  refine ⟨?_, ?_, ?_⟩
  · exact c1_client_disconnect_control_reset.1 hSt 9 5 100001
      ⟨5, 1, some 9, 0, true, false, false⟩ (by decide) (by decide) (by decide)
  · exact c1_client_disconnect_control_reset.2.1 hOffSt 9 5 100001
      ⟨5, 1, some 9, 0, false, false, true⟩ (by decide) (by decide) (by decide) (by decide)
      (by decide) (by decide) (by decide)
  · exact c1_client_disconnect_control_reset.2.2 cSt 9 (some 5)

/-- C2: the heartbeat variant's reachable `reconnect-session` handler
(src/server.js 193–216) performs NO role-exclusivity check.  In `hSt` the
host connection `1` is live, yet a `reconnect-session` for role host from
connection `2` overwrites `hostId` with `2` and replies success
(`host-reconnected` to the client, then `session-rejoined`) instead of the
claimed RoleAlreadyOccupied-style failure.  The same file's second
`reconnect-session` handler (lines 263–305, shadowed dead code) and
part_000's `restore-session` (lines 38–66) would both have rejected the
takeover and left `hostId` unchanged — evidence that the reachable handler
is the slip. -/
theorem c2_reconnect_host_takeover_bug :
    (lookupKey hSt.clients 1).isSome ∧
    (lookupKey
        (Heart.handleMessage hSt 2 rand0 0 0 (InMsg.reconnectSession 100001 Role.host)).1.sessions
        100001).map SessionH.hostId = some 2 ∧
    (Heart.handleMessage hSt 2 rand0 0 0 (InMsg.reconnectSession 100001 Role.host)).2 =
      [(9, OutMsg.hostReconnected), (2, OutMsg.sessionRejoined 5)] ∧
    Heart.reconnectSecond hSt 2 100001 Role.host =
      (hSt, [(2, OutMsg.reconnectFailed RFail.hostAlreadyConnected)]) ∧
    Restore.restoreSession cSt 2 100001 Role.host =
      (cSt, [(2, OutMsg.error ErrCode.noSessionToRestore)]) := by
  decide

/-- C4 counterexample: in the heartbeat variant (src/server.js 239–261) a
`join-session` against a session whose host is unreachable replies
`host-not-available` but does NOT remove the orphaned session from the
store, contradicting the claimed garbage collection. -/
theorem c4_heartbeat_join_no_gc_counterexample :
    Heart.joinSession hOrphanSt 2 100001 =
      (hOrphanSt, [(2, OutMsg.error ErrCode.hostNotAvailable)]) ∧
    lookupKey (Heart.joinSession hOrphanSt 2 100001).1.sessions 100001 =
      some ⟨5, 1, none, 0, false, true, false⟩ := by
  decide

/-- C4 amended: in every variant `join-session` applies its checks in
exactly the claimed order — InvalidCode when no session matches the code;
HostUnavailable when the host's connection is not in the registry, in
which case the grace-period and MVP variants (src/server.js 47–65,
src/unnamed/part_000 80–98, src/unnamed/part_001 79–108, all sharing one
embedding) also remove the orphaned session while the heartbeat variant
(src/server.js 239–261) leaves it in the store; SlotOccupied when a live
client is already bound; otherwise it binds the caller as client, sets the
caller's session binding, and replies `session-joined` to the caller and
`client-joined` (with the new client's id) to the host.  Conjuncts 1–4 are
the grace-period embedding's four cases, conjuncts 5–8 the heartbeat
embedding's. -/
theorem c4_join_session_checks :
    (∀ (st : St) (me : ClientId) (code : Code),
      lookupKey st.sessions code = none →
      Grace.joinSession st me code = (st, [(me, OutMsg.error ErrCode.invalidSessionCode)])) ∧
    (∀ (st : St) (me : ClientId) (code : Code) (s : Session),
      lookupKey st.sessions code = some s →
      lookupKey st.clients s.hostId = none →
      Grace.joinSession st me code =
        ({ st with sessions := eraseKey st.sessions code },
         [(me, OutMsg.error ErrCode.hostNotAvailable)]) ∧
      lookupKey (Grace.joinSession st me code).1.sessions code = none) ∧
    (∀ (st : St) (me : ClientId) (code : Code) (s : Session) (c : ClientId),
      lookupKey st.sessions code = some s →
      (lookupKey st.clients s.hostId).isSome →
      s.clientId = some c → (lookupKey st.clients c).isSome →
      Grace.joinSession st me code =
        (st, [(me, OutMsg.error ErrCode.sessionAlreadyHasClient)])) ∧
    (∀ (st : St) (me : ClientId) (code : Code) (s : Session),
      lookupKey st.sessions code = some s →
      (lookupKey st.clients s.hostId).isSome →
      (s.clientId.bind (fun c => lookupKey st.clients c)).isNone →
      (Grace.joinSession st me code).2 =
        [(me, OutMsg.sessionJoined s.id code), (s.hostId, OutMsg.clientJoined me)] ∧
      lookupKey (Grace.joinSession st me code).1.sessions code =
        some { s with clientId := some me } ∧
      lookupKey (Grace.joinSession st me code).1.clients me =
        (lookupKey st.clients me).map (fun cn => { cn with sessionId := some s.id })) ∧
    (∀ (st : StH) (me : ClientId) (code : Code),
      lookupKey st.sessions code = none →
      Heart.joinSession st me code = (st, [(me, OutMsg.error ErrCode.invalidSessionCode)])) ∧
    (∀ (st : StH) (me : ClientId) (code : Code) (s : SessionH),
      lookupKey st.sessions code = some s →
      lookupKey st.clients s.hostId = none →
      Heart.joinSession st me code = (st, [(me, OutMsg.error ErrCode.hostNotAvailable)]) ∧
      lookupKey (Heart.joinSession st me code).1.sessions code = some s) ∧
    (∀ (st : StH) (me : ClientId) (code : Code) (s : SessionH) (c : ClientId),
      lookupKey st.sessions code = some s →
      (lookupKey st.clients s.hostId).isSome →
      s.clientId = some c → (lookupKey st.clients c).isSome →
      Heart.joinSession st me code =
        (st, [(me, OutMsg.error ErrCode.sessionAlreadyHasClient)])) ∧
    (∀ (st : StH) (me : ClientId) (code : Code) (s : SessionH),
      lookupKey st.sessions code = some s →
      (lookupKey st.clients s.hostId).isSome →
      (s.clientId.bind (fun c => lookupKey st.clients c)).isNone →
      (Heart.joinSession st me code).2 =
        [(me, OutMsg.sessionJoined s.id code), (s.hostId, OutMsg.clientJoined me)] ∧
      lookupKey (Heart.joinSession st me code).1.sessions code =
        some { s with clientId := some me } ∧
      lookupKey (Heart.joinSession st me code).1.clients me =
        (lookupKey st.clients me).map
          (fun _ => ({ sessionId := some s.id, role := some Role.client } : ConnH))) := by
  refine ⟨?_, ?_, ?_, ?_, ?_, ?_, ?_, ?_⟩
  · intro st me code h
    simp [Grace.joinSession, h]
  · intro st me code s h hhost
    constructor <;> simp [Grace.joinSession, h, hhost, lookupKey_eraseKey_self]
  · intro st me code s c h hhost hc hcl
    have hh2 : lookupKey st.clients s.hostId ≠ none := Option.ne_none_iff_isSome.mpr hhost
    simp [Grace.joinSession, h, hh2, hc, hcl]
  · intro st me code s h hhost hfree
    have hh2 : lookupKey st.clients s.hostId ≠ none := Option.ne_none_iff_isSome.mpr hhost
    have hfree' : (s.clientId.bind (fun c => lookupKey st.clients c)) = none :=
      Option.isNone_iff_eq_none.mp hfree
    refine ⟨?_, ?_, ?_⟩ <;>
      simp [Grace.joinSession, h, hh2, hfree', lookupKey_insertKey_self,
        lookupKey_setConnSession_self]
  · intro st me code h
    simp [Heart.joinSession, h]
  · intro st me code s h hhost
    constructor <;> simp [Heart.joinSession, h, hhost]
  · intro st me code s c h hhost hc hcl
    have hh2 : lookupKey st.clients s.hostId ≠ none := Option.ne_none_iff_isSome.mpr hhost
    simp [Heart.joinSession, h, hh2, hc, hcl]
  · intro st me code s h hhost hfree
    have hh2 : lookupKey st.clients s.hostId ≠ none := Option.ne_none_iff_isSome.mpr hhost
    have hfree' : (s.clientId.bind (fun c => lookupKey st.clients c)) = none :=
      Option.isNone_iff_eq_none.mp hfree
    refine ⟨?_, ?_, ?_⟩ <;>
      simp [Heart.joinSession, h, hh2, hfree', lookupKey_insertKey_self,
        lookupKey_setConnH_self]

/-- Witness for C4, one instance per case and variant: unknown code in
`freeSt` and `hSt`; orphaned-session removal in `orphanSt` versus the
orphan left in place in `hOrphanSt`; occupied slot in `wSt` and `hSt`;
successful join of `2` into `freeSt`, and into `hStaleSt` (whose stale
client slot names the dead connection `9`, so the heartbeat join rebinds
it). -/
theorem c4_join_session_checks_witness :
    Grace.joinSession freeSt 2 999999 =
      (freeSt, [(2, OutMsg.error ErrCode.invalidSessionCode)]) ∧
    Grace.joinSession orphanSt 2 100001 =
      ({ orphanSt with sessions := eraseKey orphanSt.sessions 100001 },
       [(2, OutMsg.error ErrCode.hostNotAvailable)]) ∧
    Grace.joinSession wSt 2 100001 =
      (wSt, [(2, OutMsg.error ErrCode.sessionAlreadyHasClient)]) ∧
    (Grace.joinSession freeSt 2 100001).2 =
      [(2, OutMsg.sessionJoined 5 100001), (1, OutMsg.clientJoined 2)] ∧
    lookupKey (Grace.joinSession freeSt 2 100001).1.sessions 100001 =
      some ⟨5, 1, some 2, 0, false⟩ ∧
    Heart.joinSession hSt 2 999999 =
      (hSt, [(2, OutMsg.error ErrCode.invalidSessionCode)]) ∧
    Heart.joinSession hOrphanSt 2 100001 =
      (hOrphanSt, [(2, OutMsg.error ErrCode.hostNotAvailable)]) ∧
    lookupKey (Heart.joinSession hOrphanSt 2 100001).1.sessions 100001 =
      some ⟨5, 1, none, 0, false, true, false⟩ ∧
    Heart.joinSession hSt 2 100001 =
      (hSt, [(2, OutMsg.error ErrCode.sessionAlreadyHasClient)]) ∧
    (Heart.joinSession hStaleSt 2 100001).2 =
      [(2, OutMsg.sessionJoined 5 100001), (1, OutMsg.clientJoined 2)] ∧
    lookupKey (Heart.joinSession hStaleSt 2 100001).1.sessions 100001 =
      some ⟨5, 1, some 2, 0, true, false, true⟩ := by
  refine ⟨?_, ?_, ?_, ?_, ?_, ?_, ?_, ?_, ?_, ?_, ?_⟩
  · exact c4_join_session_checks.1 freeSt 2 999999 (by decide)
  · exact (c4_join_session_checks.2.1 orphanSt 2 100001 ⟨5, 1, none, 0, false⟩
      (by decide) (by decide)).1
  · exact c4_join_session_checks.2.2.1 wSt 2 100001 ⟨5, 1, some 9, 0, false⟩ 9
      (by decide) (by decide) (by decide) (by decide)
  · exact (c4_join_session_checks.2.2.2.1 freeSt 2 100001 ⟨5, 1, none, 0, false⟩
      (by decide) (by decide) (by decide)).1
  · exact (c4_join_session_checks.2.2.2.1 freeSt 2 100001 ⟨5, 1, none, 0, false⟩
      (by decide) (by decide) (by decide)).2.1
  · exact c4_join_session_checks.2.2.2.2.1 hSt 2 999999 (by decide)
  · exact (c4_join_session_checks.2.2.2.2.2.1 hOrphanSt 2 100001
      ⟨5, 1, none, 0, false, true, false⟩ (by decide) (by decide)).1
  · exact (c4_join_session_checks.2.2.2.2.2.1 hOrphanSt 2 100001
      ⟨5, 1, none, 0, false, true, false⟩ (by decide) (by decide)).2
  · exact c4_join_session_checks.2.2.2.2.2.2.1 hSt 2 100001
      ⟨5, 1, some 9, 0, true, false, false⟩ 9 (by decide) (by decide) (by decide) (by decide)
  · exact (c4_join_session_checks.2.2.2.2.2.2.2 hStaleSt 2 100001
      ⟨5, 1, some 9, 0, true, false, true⟩ (by decide) (by decide) (by decide)).1
  · exact (c4_join_session_checks.2.2.2.2.2.2.2 hStaleSt 2 100001
      ⟨5, 1, some 9, 0, true, false, true⟩ (by decide) (by decide) (by decide)).2.1

/-- C6 counterexample: `create-session` draws its code with no check
against live sessions.  In `collSt` a session (id `1`) is live under code
`123456` at the instant of the call, yet a draw of `23456` makes the call
return that very code — and the earlier session is silently overwritten
(its id no longer resolves).  The returned code is therefore not distinct
from the codes of sessions live at that instant (src/server.js 37–45,
src/unnamed/part_001 62–76). -/
theorem c6_code_collision_counterexample :
    lookupKey collSt.sessions 123456 = some ⟨1, 4, none, 0, false⟩ ∧
    (Grace.createSession collSt 7 ⟨23456, by decide⟩ 2 0).2 =
      [(7, OutMsg.sessionCreated 123456 2)] ∧
    findByIdEntry (Grace.createSession collSt 7 ⟨23456, by decide⟩ 2 0).1.sessions 1 =
      none := by
  decide

/-- C6 amended: the returned code is six digits and, *after* the call,
unique in the store — but only because a colliding insert overwrites the
earlier session; nothing checks the draw against sessions live at call
time.  The returned session id is exactly the uuid supplied by the
generator, so ids are distinct across the process lifetime exactly when
the generator never repeats.  All other codes' entries are untouched. -/
theorem c6_create_session_codes :
    ∀ (st : St) (me : ClientId) (rand : Fin 900000) (freshId : SessionId) (now : Nat),
      (st.sessions.map Prod.fst).Nodup →
      (100000 ≤ 100000 + rand.1 ∧ 100000 + rand.1 ≤ 999999) ∧
      (Grace.createSession st me rand freshId now).2 =
        [(me, OutMsg.sessionCreated (100000 + rand.1) freshId)] ∧
      lookupKey (Grace.createSession st me rand freshId now).1.sessions (100000 + rand.1) =
        some ⟨freshId, me, none, now, false⟩ ∧
      (((Grace.createSession st me rand freshId now).1.sessions).map Prod.fst).Nodup ∧
      (∀ c, c ≠ 100000 + rand.1 →
        lookupKey (Grace.createSession st me rand freshId now).1.sessions c =
          lookupKey st.sessions c) := by
  intro st me rand freshId now hnd
  have hb := rand.2
  refine ⟨⟨Nat.le_add_right _ _, by omega⟩, rfl, ?_, ?_, ?_⟩
  · simp only [Grace.createSession]
    exact lookupKey_insertKey_self _ _ _
  · simp only [Grace.createSession]
    exact nodupKeys_insertKey _ _ _ hnd
  · intro c hc
    simp only [Grace.createSession]
    exact lookupKey_insertKey_ne _ _ _ _ hc

/-- Witness for C6: creating a session in `wSt` with draw `0` and uuid `8`
stores it under the fresh code `100000`, keeps the key set duplicate-free,
and leaves the pre-existing session under `100001` untouched. -/
theorem c6_create_session_codes_witness :
    (Grace.createSession wSt 2 rand0 8 3).2 = [(2, OutMsg.sessionCreated 100000 8)] ∧
    lookupKey (Grace.createSession wSt 2 rand0 8 3).1.sessions 100000 =
      some ⟨8, 2, none, 3, false⟩ ∧
    (((Grace.createSession wSt 2 rand0 8 3).1.sessions).map Prod.fst).Nodup ∧
    lookupKey (Grace.createSession wSt 2 rand0 8 3).1.sessions 100001 =
      lookupKey wSt.sessions 100001 := by
  have h := c6_create_session_codes wSt 2 rand0 8 3 (by decide)
  exact ⟨h.2.1, h.2.2.1, h.2.2.2.1, h.2.2.2.2 100001 (by decide)⟩

/-- C7 counterexample: in the heartbeat variant (src/server.js 307–319)
the host `1` relays an offer while the bound client `9` is not in the
registry: the message is dropped *silently* — the sender receives no
`peer-not-connected` error, contradicting the claim for that variant. -/
theorem c7_heartbeat_silent_drop_counterexample :
    Heart.relaySignal hStaleSt 1 SigKind.offer 5 42 = (hStaleSt, []) := by
  decide

/-- C7 amended: for `offer`/`answer`/`ice-candidate`, an unresolvable
session id earns the sender `unknown-session`; when the non-sender slot
(the client slot if the sender is the host, the host slot otherwise)
resolves to a live connection, the payload is forwarded to exactly that
one peer with the sender's id as provenance, the state untouched (never
stored, never fanned out); when it does not resolve, the message is
dropped and the grace-period variant (src/server.js 67–77) informs the
sender with `peer-not-connected` while the heartbeat variant (src/server.js
307–319) stays silent. -/
theorem c7_signal_relay :
    (∀ (st : St) (me : ClientId) (k : SigKind) (sid : SessionId) (p : Payload)
      (rand : Fin 900000) (freshId : SessionId) (now : Nat),
      findByIdEntry st.sessions sid = none →
      Grace.handleMessage st me rand freshId now (InMsg.signal k sid p) =
        (st, [(me, OutMsg.error ErrCode.unknownSession)])) ∧
    (∀ (st : St) (me : ClientId) (k : SigKind) (sid : SessionId) (p : Payload)
      (rand : Fin 900000) (freshId : SessionId) (now : Nat) (code : Code) (s : Session)
      (t : ClientId),
      findByIdEntry st.sessions sid = some (code, s) →
      (if s.hostId = me then s.clientId else some s.hostId) = some t →
      (lookupKey st.clients t).isSome →
      Grace.handleMessage st me rand freshId now (InMsg.signal k sid p) =
        (st, [(t, OutMsg.signalFwd k me p)])) ∧
    (∀ (st : St) (me : ClientId) (k : SigKind) (sid : SessionId) (p : Payload)
      (rand : Fin 900000) (freshId : SessionId) (now : Nat) (code : Code) (s : Session),
      findByIdEntry st.sessions sid = some (code, s) →
      ((if s.hostId = me then s.clientId else some s.hostId).bind
        (fun t => lookupKey st.clients t)) = none →
      Grace.handleMessage st me rand freshId now (InMsg.signal k sid p) =
        (st, [(me, OutMsg.error ErrCode.peerNotConnected)])) ∧
    (∀ (st : StH) (me : ClientId) (k : SigKind) (sid : SessionId) (p : Payload),
      findByIdEntryH st.sessions sid = none →
      Heart.relaySignal st me k sid p = (st, [(me, OutMsg.error ErrCode.unknownSession)])) ∧
    (∀ (st : StH) (me : ClientId) (k : SigKind) (sid : SessionId) (p : Payload)
      (code : Code) (s : SessionH) (t : ClientId),
      findByIdEntryH st.sessions sid = some (code, s) →
      (if s.hostId = me then s.clientId else some s.hostId) = some t →
      (lookupKey st.clients t).isSome →
      Heart.relaySignal st me k sid p = (st, [(t, OutMsg.signalFwd k me p)])) ∧
    (∀ (st : StH) (me : ClientId) (k : SigKind) (sid : SessionId) (p : Payload)
      (code : Code) (s : SessionH),
      findByIdEntryH st.sessions sid = some (code, s) →
      ((if s.hostId = me then s.clientId else some s.hostId).bind
        (fun t => lookupKey st.clients t)) = none →
      Heart.relaySignal st me k sid p = (st, [])) := by
  refine ⟨?_, ?_, ?_, ?_, ?_, ?_⟩
  · intro st me k sid p rand freshId now h
    simp [Grace.handleMessage, Grace.relaySignal, h]
  · intro st me k sid p rand freshId now code s t hf ht hl
    simp [Grace.handleMessage, Grace.relaySignal, hf, ht, hl]
  · intro st me k sid p rand freshId now code s hf hb
    rcases ht : (if s.hostId = me then s.clientId else some s.hostId) with _ | t
    · simp [Grace.handleMessage, Grace.relaySignal, hf, ht]
    · rw [ht] at hb
      simp only [Option.some_bind] at hb
      simp [Grace.handleMessage, Grace.relaySignal, hf, ht, hb]
  · intro st me k sid p h
    simp [Heart.relaySignal, h]
  · intro st me k sid p code s t hf ht hl
    simp [Heart.relaySignal, hf, ht, hl]
  · intro st me k sid p code s hf hb
    rcases ht : (if s.hostId = me then s.clientId else some s.hostId) with _ | t
    · simp [Heart.relaySignal, hf, ht]
    · rw [ht] at hb
      simp only [Option.some_bind] at hb
      simp [Heart.relaySignal, hf, ht, hb]

/-- Witness for C7, one instance per case: unknown session id `77`;
outsider `2` forwarded to host `1` in `wSt`; host `1` of `freeSt` relaying
into an empty client slot gets `peer-not-connected`; the heartbeat variant
on the same three shapes, with the dead-target case (stale client `9` in
`hStaleSt`) silently dropped. -/
theorem c7_signal_relay_witness :
    Grace.handleMessage wSt 2 rand0 0 0 (InMsg.signal SigKind.answer 77 1) =
      (wSt, [(2, OutMsg.error ErrCode.unknownSession)]) ∧
    Grace.handleMessage wSt 9 rand0 0 0 (InMsg.signal SigKind.answer 5 1) =
      (wSt, [(1, OutMsg.signalFwd SigKind.answer 9 1)]) ∧
    Grace.handleMessage freeSt 1 rand0 0 0 (InMsg.signal SigKind.ice 5 1) =
      (freeSt, [(1, OutMsg.error ErrCode.peerNotConnected)]) ∧
    Heart.relaySignal hSt 2 SigKind.answer 77 1 =
      (hSt, [(2, OutMsg.error ErrCode.unknownSession)]) ∧
    Heart.relaySignal hSt 9 SigKind.answer 5 1 =
      (hSt, [(1, OutMsg.signalFwd SigKind.answer 9 1)]) ∧
    Heart.relaySignal hStaleSt 1 SigKind.answer 5 1 = (hStaleSt, []) := by
  refine ⟨?_, ?_, ?_, ?_, ?_, ?_⟩
  · exact c7_signal_relay.1 wSt 2 SigKind.answer 77 1 rand0 0 0 (by decide)
  · exact c7_signal_relay.2.1 wSt 9 SigKind.answer 5 1 rand0 0 0 100001
      ⟨5, 1, some 9, 0, false⟩ 1 (by decide) (by decide) (by decide)
  · exact c7_signal_relay.2.2.1 freeSt 1 SigKind.ice 5 1 rand0 0 0 100001
      ⟨5, 1, none, 0, false⟩ (by decide) (by decide)
  · exact c7_signal_relay.2.2.2.1 hSt 2 SigKind.answer 77 1 (by decide)
  · exact c7_signal_relay.2.2.2.2.1 hSt 9 SigKind.answer 5 1 100001
      ⟨5, 1, some 9, 0, true, false, false⟩ 1 (by decide) (by decide) (by decide)
  · exact c7_signal_relay.2.2.2.2.2 hStaleSt 1 SigKind.answer 5 1 100001
      ⟨5, 1, some 9, 0, true, false, true⟩ (by decide) (by decide)

/-- C5: whenever a message trips one of the protocol preconditions of the
spec's clause (b) — unknown type, unknown session code or id, wrong role,
control disabled, client slot occupied, as captured by `gracePreFail` /
`restorePreFail` — the dispatcher replies with exactly one `error` naming
that precondition and the state (session store, connection registry, every
session's fields) is returned unchanged.  Proved for the grace-period
variant's dispatcher (src/server.js 32–101) and the restore variant's
(src/unnamed/part_000 32–137). -/
theorem c5_precondition_errors_pure :
    (∀ (st : St) (me : ClientId) (rand : Fin 900000) (freshId : SessionId) (now : Nat)
      (m : InMsg) (e : ErrCode),
      gracePreFail st me m = some e →
      Grace.handleMessage st me rand freshId now m = (st, [(me, OutMsg.error e)])) ∧
    (∀ (st : St) (me : ClientId) (rand : Fin 900000) (freshId : SessionId) (now : Nat)
      (m : InMsg) (e : ErrCode),
      restorePreFail st me m = some e →
      Restore.handleMessage st me rand freshId now m = (st, [(me, OutMsg.error e)])) := by
  have hg : ∀ (st : St) (me : ClientId) (rand : Fin 900000) (freshId : SessionId) (now : Nat)
      (m : InMsg) (e : ErrCode),
      gracePreFail st me m = some e →
      Grace.handleMessage st me rand freshId now m = (st, [(me, OutMsg.error e)]) := by
    intro st me rand freshId now m e h
    cases m with
    | createSession => exact absurd h (by simp [gracePreFail])
    | joinSession code =>
      simp only [gracePreFail] at h
      rcases hl : lookupKey st.sessions code with _ | s
      · rw [hl] at h
        simp only at h
        injection h with h
        subst h
        simp [Grace.handleMessage, Grace.joinSession, hl]
      · rw [hl] at h
        simp only at h
        by_cases hh : (lookupKey st.clients s.hostId).isNone
        · rw [if_pos hh] at h
          exact absurd h (by simp)
        · rw [if_neg hh] at h
          by_cases hc : (s.clientId.bind fun c => lookupKey st.clients c).isSome
          · rw [if_pos hc] at h
            injection h with h
            subst h
            simp [Grace.handleMessage, Grace.joinSession, hl, hh, hc]
          · rw [if_neg hc] at h
            exact absurd h (by simp)
    | signal k sid p =>
      simp only [gracePreFail] at h
      rcases hf : findByIdEntry st.sessions sid with _ | cs
      · rw [hf] at h
        simp only at h
        injection h with h
        subst h
        simp [Grace.handleMessage, Grace.relaySignal, hf]
      · rw [hf] at h
        simp only at h
        exact absurd h (by simp)
    | toggleControl sid en =>
      simp only [gracePreFail] at h
      rcases hf : findByIdEntry st.sessions sid with _ | cs
      · rw [hf] at h
        simp only at h
        injection h with h
        subst h
        simp [Grace.handleMessage, Grace.toggleControl, hf]
      · obtain ⟨code, s⟩ := cs
        rw [hf] at h
        simp only at h
        by_cases hhost : s.hostId ≠ me
        · rw [if_pos hhost] at h
          injection h with h
          subst h
          simp [Grace.handleMessage, Grace.toggleControl, hf, hhost]
        · rw [if_neg hhost] at h
          exact absurd h (by simp)
    | controlMsg sid ev =>
      simp only [gracePreFail] at h
      rcases hf : findByIdEntry st.sessions sid with _ | cs
      · rw [hf] at h
        simp only at h
        injection h with h
        subst h
        simp [Grace.handleMessage, Grace.controlEvent, hf]
      · obtain ⟨code, s⟩ := cs
        rw [hf] at h
        simp only at h
        rcases hce : s.controlEnabled with _ | _
        · rw [hce] at h
          simp only [Bool.not_false, if_true] at h
          injection h with h
          subst h
          simp [Grace.handleMessage, Grace.controlEvent, hf, hce]
        · rw [hce] at h
          exact absurd h (by simp)
    | restoreSession code role =>
      simp only [gracePreFail] at h
      injection h with h
      subst h
      rfl
    | reconnectSession code role =>
      simp only [gracePreFail] at h
      injection h with h
      subst h
      rfl
    | other =>
      simp only [gracePreFail] at h
      injection h with h
      subst h
      rfl
  refine ⟨hg, ?_⟩
  intro st me rand freshId now m e h
  cases m with
  | createSession => exact hg st me rand freshId now InMsg.createSession e h
  | joinSession code => exact hg st me rand freshId now (InMsg.joinSession code) e h
  | signal k sid p => exact hg st me rand freshId now (InMsg.signal k sid p) e h
  | toggleControl sid en => exact hg st me rand freshId now (InMsg.toggleControl sid en) e h
  | controlMsg sid ev => exact hg st me rand freshId now (InMsg.controlMsg sid ev) e h
  | other => exact hg st me rand freshId now InMsg.other e h
  | reconnectSession code role =>
    simp only [restorePreFail] at h
    injection h with h
    subst h
    rfl
  | restoreSession code role =>
    simp only [restorePreFail] at h
    rcases hl : lookupKey st.sessions code with _ | s
    · rw [hl] at h
      simp only at h
      injection h with h
      subst h
      simp [Restore.handleMessage, Restore.restoreSession, hl]
    · rw [hl] at h
      simp only at h
      by_cases h1 : role = Role.host ∧ (lookupKey st.clients s.hostId).isNone
      · rw [if_pos h1] at h
        exact absurd h (by simp)
      · rw [if_neg h1] at h
        by_cases h2 : role = Role.client ∧
            (s.clientId.bind fun c => lookupKey st.clients c).isNone
        · rw [if_pos h2] at h
          exact absurd h (by simp)
        · rw [if_neg h2] at h
          injection h with h
          subst h
          simp only [Restore.handleMessage, Restore.restoreSession, hl]
          rw [if_neg h1, if_neg h2]

/-- Witness for C5: a non-host toggling control in `wSt` gets one
`not-host` error and the state back unchanged; a `restore-session` for an
occupied host slot in `cSt` gets one `no-session-to-restore` error,
likewise without mutation. -/
theorem c5_precondition_errors_pure_witness :
    Grace.handleMessage wSt 9 rand0 0 0 (InMsg.toggleControl 5 true) =
      (wSt, [(9, OutMsg.error ErrCode.notHost)]) ∧
    Restore.handleMessage cSt 2 rand0 0 0 (InMsg.restoreSession 100001 Role.host) =
      (cSt, [(2, OutMsg.error ErrCode.noSessionToRestore)]) :=
  ⟨c5_precondition_errors_pure.1 wSt 9 rand0 0 0 (InMsg.toggleControl 5 true)
      ErrCode.notHost (by decide),
   c5_precondition_errors_pure.2 cSt 2 rand0 0 0 (InMsg.restoreSession 100001 Role.host)
      ErrCode.noSessionToRestore (by decide)⟩

end Sig
